import Mathlib

/-!
# Verification of the result-materialization layer of the weaviate python client

Shallow embedding of `weaviate/collections/queries/base_executor.py`
(class `_BaseExecutor`): the decode/assemble pipeline turning a gRPC
search reply into typed result objects.

Conventions of the embedding:
* Python `float` values that are merely moved around (distances, scores,
  vector components, coordinates) are represented as `ℚ`.
* Protobuf byte buffers are `List Nat` (one entry per byte).
* Python dicts built by comprehension / item assignment are association
  lists built with `insertD`, which mirrors CPython dict semantics:
  an existing key keeps its position and gets the new value, a new key is
  appended.
* Routines of this repository that live outside the sources in scope
  (`_ByteOps`, `_Unpack`, `_datetime_from_weaviate_str`, `uuid` string
  parsing) are passed in as an explicit record of helper functions
  `Helpers`; the decoders under verification only dispatch to them, which
  is exactly what the python code does.
-/

namespace Weaviate

/-- CPython dict update semantics on an association list: assigning to an
existing key replaces its value in place, a fresh key is appended. -/
def insertD {α : Type} (acc : List (String × α)) (kv : String × α) :
    List (String × α) :=
  if (acc.map Prod.fst).contains kv.1 then
    acc.map (fun p => if p.1 = kv.1 then (p.1, kv.2) else p)
  else acc ++ [kv]

/-- Embeds `warnings.warn` calls issued during decoding (`weaviate/warnings.py`).
`unknownTypeEncountered` is `_Warnings.unknown_type_encountered(field)`;
its argument is the `WhichOneof` result, `none` when no tag is set. -/
inductive Warning where
  | unknownTypeEncountered (field : Option String)
deriving DecidableEq, Repr

/-- Embeds `datetime.datetime` with `tz=datetime.timezone.utc`, represented by its
exact seconds-since-epoch value (python computes `timestamp / 1000` or
`timestamp / 1e9` before calling `fromtimestamp`). -/
structure UtcDatetime where
  seconds : ℚ
deriving DecidableEq, Repr

/-- Embeds `base_pb2.Vectors.VECTOR_TYPE_SINGLE_FP32` (proto enum value). -/
def VECTOR_TYPE_SINGLE_FP32 : Nat := 1

/-- Embeds `base_pb2.Vectors.VECTOR_TYPE_MULTI_FP32` (proto enum value). -/
def VECTOR_TYPE_MULTI_FP32 : Nat := 2

/-- One entry of `MetadataResult.vectors` (message `base_pb2.Vectors`).
The `type` field is an open proto3 enum, hence a bare `Nat`. -/
structure VectorsMsg where
  name : String
  vector_bytes : List Nat
  type : Nat
deriving DecidableEq, Repr

/-- Embeds `search_get_pb2.MetadataResult`: raw per-object metadata as it arrives
on the wire.  Every optional scalar carries an explicit companion
`*_present` flag; proto3 default values fill the payload fields. -/
structure MetadataResult where
  id_as_bytes : List Nat := []
  distance : ℚ := 0
  distance_present : Bool := false
  certainty : ℚ := 0
  certainty_present : Bool := false
  creation_time_unix : Nat := 0
  creation_time_unix_present : Bool := false
  last_update_time_unix : Nat := 0
  last_update_time_unix_present : Bool := false
  score : ℚ := 0
  score_present : Bool := false
  explain_score : String := ""
  explain_score_present : Bool := false
  is_consistent : Bool := false
  is_consistent_present : Bool := false
  rerank_score : ℚ := 0
  rerank_score_present : Bool := false
  generative : String := ""
  generative_present : Bool := false
  vector_bytes : List Nat := []
  vector : List ℚ := []
  vectors : List VectorsMsg := []
deriving DecidableEq, Repr

/-- Embeds `MetadataReturn`: decoded metadata, every field independently optional. -/
structure MetadataReturn where
  distance : Option ℚ := none
  certainty : Option ℚ := none
  creation_time : Option UtcDatetime := none
  last_update_time : Option UtcDatetime := none
  score : Option ℚ := none
  explain_score : Option String := none
  is_consistent : Option Bool := none
  rerank_score : Option ℚ := none
deriving DecidableEq, Repr

/-- Embeds `GroupByMetadataReturn`: group-by objects only expose the distance. -/
structure GroupByMetadataReturn where
  distance : Option ℚ := none
deriving DecidableEq, Repr

/-- Decimal digit count of a nonnegative integer, i.e. python's
`len(str(timestamp))` for a nonnegative timestamp. -/
def pyStrLen (n : Nat) : Nat := (Nat.toDigits 10 n).length

/-- Embeds `_BaseExecutor.__retrieve_timestamp`: disambiguate a wire epoch integer
between millisecond scale (decimal digit count ≤ 13) and nanosecond scale
(otherwise), then build a UTC datetime from the divided value. -/
def retrieve_timestamp (timestamp : Nat) : UtcDatetime :=
  if pyStrLen timestamp ≤ 13 then
    ⟨(timestamp : ℚ) / 1000⟩
  else
    ⟨(timestamp : ℚ) / 1000000000⟩

/-- Interpretation of a wire integer as milliseconds since epoch. -/
def millisInterpretation (t : Nat) : UtcDatetime := ⟨(t : ℚ) / 1000⟩

/-- Interpretation of a wire integer as nanoseconds since epoch. -/
def nanosInterpretation (t : Nat) : UtcDatetime := ⟨(t : ℚ) / 1000000000⟩

/-- Embeds `_BaseExecutor.__extract_metadata_for_object`: each decoded field is the
wire value when its companion presence flag is set, and `None` otherwise. -/
def extract_metadata_for_object (add_props : MetadataResult) : MetadataReturn where
  distance := if add_props.distance_present then some add_props.distance else none
  certainty := if add_props.certainty_present then some add_props.certainty else none
  creation_time :=
    if add_props.creation_time_unix_present then
      some (retrieve_timestamp add_props.creation_time_unix)
    else none
  last_update_time :=
    if add_props.last_update_time_unix_present then
      some (retrieve_timestamp add_props.last_update_time_unix)
    else none
  score := if add_props.score_present then some add_props.score else none
  explain_score :=
    if add_props.explain_score_present then some add_props.explain_score else none
  is_consistent :=
    if add_props.is_consistent_present then some add_props.is_consistent else none
  rerank_score :=
    if add_props.rerank_score_present then some add_props.rerank_score else none

/-- Embeds `_BaseExecutor.__extract_metadata_for_group_by_object`. -/
def extract_metadata_for_group_by_object (add_props : MetadataResult) :
    GroupByMetadataReturn where
  distance := if add_props.distance_present then some add_props.distance else none

/-- Python `int.from_bytes(bs, byteorder="big")`. -/
def int_from_bytes_big (bs : List Nat) : Nat :=
  bs.foldl (fun acc b => acc * 256 + b) 0

/-- Embeds `_BaseExecutor.__extract_id_for_object`: the object identifier is the
integer read big-endian from `id_as_bytes` (wrapped in `_WeaviateUUIDInt`,
which is a `uuid.UUID` carrying exactly this integer). -/
def extract_id_for_object (add_props : MetadataResult) : Nat :=
  int_from_bytes_big add_props.id_as_bytes

/-- Modelled from the spec: the encoder side of the identifier round-trip,
"a UUID encoded as a 16-byte big-endian integer".  (The encoder lives on
the server; only the decoder `extract_id_for_object` is client code.) -/
def uuid_to_bytes_big : Nat → Nat → List Nat
  | 0, _ => []
  | k + 1, n => uuid_to_bytes_big k (n / 256) ++ [n % 256]

/-- Embeds `properties_pb2.PhoneNumber` wire fields used by the decoder. -/
structure PhoneMsg where
  country_code : Nat
  default_country : String
  international_formatted : String
  national : Nat
  national_formatted : String
  input : String
  valid : Bool
deriving DecidableEq, Repr

/-- Embeds `_PhoneNumber`: the decoded phone record (`number` is the wire `input`). -/
structure PhoneNumberRec where
  country_code : Nat
  default_country : String
  international_formatted : String
  national : Nat
  national_formatted : String
  number : String
  valid : Bool
deriving DecidableEq, Repr

mutual
/-- Embeds `properties_pb2.Value`: the tagged-union wire form of one property
value.  `unset` is a message in which no tag of the oneof is populated
(`WhichOneof` returns `None`). -/
inductive PValue where
  | uuid_value (s : String)
  | date_value (s : String)
  | string_value (s : String)
  | text_value (s : String)
  | int_value (n : Int)
  | number_value (q : ℚ)
  | bool_value (b : Bool)
  | list_value (l : PListValue)
  | object_value (o : PProps)
  | geo_value (latitude longitude : ℚ)
  | blob_value (s : String)
  | phone_value (p : PhoneMsg)
  | null_value
  | unset

/-- Embeds `properties_pb2.ListValue`: carries the legacy pre-1.25 repeated
`values` field and the 1.25+ typed oneof (`kind`). -/
inductive PListValue where
  | mk (values : List PValue) (kind : PListKind)

/-- The 1.25+ typed oneof of `ListValue`.  Numeric variants are packed
byte buffers; `unsetK` is the case where no tag is populated. -/
inductive PListKind where
  | bool_values (bs : List Bool)
  | date_values (ds : List String)
  | int_values (buf : List Nat)
  | number_values (buf : List Nat)
  | text_values (ts : List String)
  | uuid_values (us : List String)
  | object_values (os : List PProps)
  | unsetK

/-- Embeds `properties_pb2.Properties`: a map field name → wire value. -/
inductive PProps where
  | mk (fields : List (String × PValue))
end

/-- The legacy `values` field of a `ListValue`. -/
def PListValue.values : PListValue → List PValue
  | .mk vs _ => vs

/-- The 1.25+ oneof of a `ListValue`. -/
def PListValue.kind : PListValue → PListKind
  | .mk _ k => k

/-- The field map of a `Properties` message. -/
def PProps.fields : PProps → List (String × PValue)
  | .mk fs => fs

/-- A decoded python value as produced by the value decoder.  `noneV` is
python `None`. -/
inductive NV where
  | noneV
  | uuidV (u : Nat)
  | dateV (d : UtcDatetime)
  | strV (s : String)
  | intV (n : Int)
  | numV (q : ℚ)
  | boolV (b : Bool)
  | listV (xs : List NV)
  | dictV (fields : List (String × NV))
  | geoV (latitude longitude : ℚ)
  | blobV (s : String)
  | phoneV (p : PhoneNumberRec)

/-- Modelled from the spec: routines of this repository that the decoder
calls but that live outside the sources in scope — `uuid.UUID(string)`
(strict parse to a 128-bit value), `_datetime_from_weaviate_str` (strict
RFC3339 parse, result as seconds since epoch), `_ByteOps.decode_int64s` /
`decode_float64s` / `decode_float32s` (fixed-width unpack of packed
buffers) and `_Unpack.single` / `_Unpack.multi` (vector unpack).  The
decoders under verification only dispatch to them, so they are threaded
through as explicit parameters. -/
structure Helpers where
  parseUUID : String → Nat
  parseDate : String → UtcDatetime
  decode_int64s : List Nat → List Int
  decode_float64s : List Nat → List ℚ
  decode_float32s : List Nat → List ℚ
  unpackSingle : List Nat → List ℚ
  unpackMulti : List Nat → List (List ℚ)

mutual
/-- Embeds `_BaseExecutor.__deserialize_non_ref_prop`: dispatch on the populated
tag of a wire value; an unpopulated oneof falls through to
`_Warnings.unknown_type_encountered` and python `None`.  The second
component collects the warnings emitted during decoding. -/
def deserialize_non_ref_prop (h : Helpers) (is125 : Bool) :
    PValue → NV × List Warning
  | .uuid_value s => (.uuidV (h.parseUUID s), [])
  | .date_value s => (.dateV (h.parseDate s), [])
  | .string_value s => (.strV s, [])
  | .text_value s => (.strV s, [])
  | .int_value n => (.intV n, [])
  | .number_value q => (.numV q, [])
  | .bool_value b => (.boolV b, [])
  | .list_value l =>
    if is125 then deserialize_list_value_prop_125 h is125 l
    else deserialize_list_value_prop_123 h is125 l
  | .object_value o =>
    let r := parse_nonref_properties_result h is125 o
    (.dictV r.1, r.2)
  | .geo_value la lo => (.geoV la lo, [])
  | .blob_value s => (.blobV s, [])
  | .phone_value p =>
    (.phoneV ⟨p.country_code, p.default_country, p.international_formatted,
              p.national, p.national_formatted, p.input, p.valid⟩, [])
  | .null_value => (.noneV, [])
  | .unset => (.noneV, [Warning.unknownTypeEncountered none])

/-- Embeds `_BaseExecutor.__deserialize_list_value_prop_125`: dispatch on the
typed oneof; an unpopulated oneof warns and yields `None` for the whole
list. -/
def deserialize_list_value_prop_125 (h : Helpers) (is125 : Bool) :
    PListValue → NV × List Warning
  | .mk _ (.bool_values bs) => (.listV (bs.map NV.boolV), [])
  | .mk _ (.date_values ds) => (.listV (ds.map (fun d => NV.dateV (h.parseDate d))), [])
  | .mk _ (.int_values buf) => (.listV ((h.decode_int64s buf).map NV.intV), [])
  | .mk _ (.number_values buf) => (.listV ((h.decode_float64s buf).map NV.numV), [])
  | .mk _ (.text_values ts) => (.listV (ts.map NV.strV), [])
  | .mk _ (.uuid_values us) => (.listV (us.map (fun u => NV.uuidV (h.parseUUID u))), [])
  | .mk _ (.object_values os) =>
    let r := deserialize_object_list h is125 os
    (.listV r.1, r.2)
  | .mk _ .unsetK => (.noneV, [Warning.unknownTypeEncountered none])

/-- Embeds `[self.__parse_nonref_properties_result(val) for val in object_values.values]`. -/
def deserialize_object_list (h : Helpers) (is125 : Bool) :
    List PProps → List NV × List Warning
  | [] => ([], [])
  | o :: os =>
    let r := parse_nonref_properties_result h is125 o
    let rest := deserialize_object_list h is125 os
    (.dictV r.1 :: rest.1, r.2 ++ rest.2)

/-- Embeds `_BaseExecutor.__deserialize_list_value_prop_123`: the legacy path maps
the generic value decoder over the repeated `values` field. -/
def deserialize_list_value_prop_123 (h : Helpers) (is125 : Bool) :
    PListValue → NV × List Warning
  | .mk vs _ =>
    let r := deserialize_value_list h is125 vs
    (.listV r.1, r.2)

/-- Element-wise decoding of a legacy value list. -/
def deserialize_value_list (h : Helpers) (is125 : Bool) :
    List PValue → List NV × List Warning
  | [] => ([], [])
  | v :: vs =>
    let r := deserialize_non_ref_prop h is125 v
    let rest := deserialize_value_list h is125 vs
    (r.1 :: rest.1, r.2 ++ rest.2)

/-- Embeds `_BaseExecutor.__parse_nonref_properties_result`: decode every field of
a nested `Properties` message, keeping the field order of the message. -/
def parse_nonref_properties_result (h : Helpers) (is125 : Bool) :
    PProps → List (String × NV) × List Warning
  | .mk fs =>
    let r := deserialize_fields h is125 fs
    r

/-- Field-wise decoding of a `Properties` field map. -/
def deserialize_fields (h : Helpers) (is125 : Bool) :
    List (String × PValue) → List (String × NV) × List Warning
  | [] => ([], [])
  | (nm, v) :: fs =>
    let r := deserialize_non_ref_prop h is125 v
    let rest := deserialize_fields h is125 fs
    ((nm, r.1) :: rest.1, r.2 ++ rest.2)
end

/-- A decoded vector value: flat single vector or multi-vector matrix. -/
inductive VecValue where
  | single (v : List ℚ)
  | multi (m : List (List ℚ))

/-- The per-entry dispatch of `__extract_vector_for_object`: single unpack
for the single tag, multi unpack for the multi tag, and single unpack as
the fallback for any unrecognized tag. -/
def decodeVecEntry (h : Helpers) (vec : VectorsMsg) : VecValue :=
  if vec.type = VECTOR_TYPE_SINGLE_FP32 then
    .single (h.unpackSingle vec.vector_bytes)
  else if vec.type = VECTOR_TYPE_MULTI_FP32 then
    .multi (h.unpackMulti vec.vector_bytes)
  else
    .single (h.unpackSingle vec.vector_bytes)

/-- Embeds `_BaseExecutor.__extract_vector_for_object`: no unnamed buffer, no
legacy floats and no named entries yield the empty dict; a non-empty
unnamed packed buffer yields `{"default": floats}`; otherwise a dict with
one entry per named entry (later duplicates overwrite), dispatching on
the vector-type tag via `decodeVecEntry`. -/
def extract_vector_for_object (h : Helpers) (add_props : MetadataResult) :
    List (String × VecValue) :=
  if add_props.vector_bytes.length = 0 ∧ add_props.vector.length = 0 ∧
      add_props.vectors.length = 0 then
    []
  else if add_props.vector_bytes.length > 0 then
    [("default", .single (h.decode_float32s add_props.vector_bytes))]
  else
    add_props.vectors.foldl
      (fun vecs vec => insertD vecs (vec.name, decodeVecEntry h vec)) []

/-- Embeds `generative_pb2.GenerativeDebug` (the field the client reads). -/
structure GenerativeDebug where
  full_prompt : String
deriving DecidableEq, Repr

/-- Embeds `generative_pb2.GenerativeMetadata`: at most one of the twelve
provider-specific submessages is populated; payloads are opaque here. -/
structure GenerativeMetadataMsg where
  anthropic : Option String := none
  anyscale : Option String := none
  aws : Option String := none
  cohere : Option String := none
  databricks : Option String := none
  dummy : Option String := none
  friendliai : Option String := none
  google : Option String := none
  mistral : Option String := none
  nvidia : Option String := none
  ollama : Option String := none
  openai : Option String := none
deriving DecidableEq, Repr

/-- The provider variant selected by `__extract_generative_metadata`. -/
inductive GenerativeMetadataOut where
  | anthropic (p : String)
  | anyscale (p : String)
  | aws (p : String)
  | cohere (p : String)
  | databricks (p : String)
  | dummy (p : String)
  | friendliai (p : String)
  | google (p : String)
  | mistral (p : String)
  | nvidia (p : String)
  | ollama (p : String)
  | openai (p : String)
deriving DecidableEq, Repr

/-- Embeds `_BaseExecutor.__extract_generative_metadata`: fixed priority order of
`HasField` checks, first populated provider wins, `None` when none is. -/
def extract_generative_metadata (m : GenerativeMetadataMsg) :
    Option GenerativeMetadataOut :=
  match m.anthropic with
  | some p => some (.anthropic p)
  | none => match m.anyscale with
    | some p => some (.anyscale p)
    | none => match m.aws with
      | some p => some (.aws p)
      | none => match m.cohere with
        | some p => some (.cohere p)
        | none => match m.databricks with
          | some p => some (.databricks p)
          | none => match m.dummy with
            | some p => some (.dummy p)
            | none => match m.friendliai with
              | some p => some (.friendliai p)
              | none => match m.google with
                | some p => some (.google p)
                | none => match m.mistral with
                  | some p => some (.mistral p)
                  | none => match m.nvidia with
                    | some p => some (.nvidia p)
                    | none => match m.ollama with
                      | some p => some (.ollama p)
                      | none => match m.openai with
                        | some p => some (.openai p)
                        | none => none

/-- One entry of `generative_pb2.GenerativeResult.values`. -/
structure GenerativeValue where
  result : String
  debug : GenerativeDebug := ⟨""⟩
  metadata : GenerativeMetadataMsg := {}
deriving DecidableEq, Repr

/-- Embeds `generative_pb2.GenerativeResult`. -/
structure GenerativeResult where
  values : List GenerativeValue := []
deriving DecidableEq, Repr

/-- Embeds `GenerativeSingle`: per-object generative annotation. -/
structure GenerativeSingle where
  debug : Option GenerativeDebug
  metadata : Option GenerativeMetadataOut
  text : String
deriving DecidableEq, Repr

/-- Embeds `GenerativeGrouped`: reply-level generative annotation. -/
structure GenerativeGrouped where
  metadata : Option GenerativeMetadataOut
  text : String
deriving DecidableEq, Repr

/-- Embeds `_BaseExecutor.__extract_generated_from_metadata` (pre-1.27 servers):
the metadata side-channel string guarded by its presence flag. -/
def extract_generated_from_metadata (add_props : MetadataResult) : Option String :=
  if add_props.generative_present then some add_props.generative else none

/-- Embeds `_BaseExecutor.__extract_generated_from_generative` (1.27+ servers):
first entry of the structured result list, if any. -/
def extract_generated_from_generative (generative : GenerativeResult) : Option String :=
  match generative.values with
  | v :: _ => some v.result
  | [] => none

/-- Embeds `_BaseExecutor.__extract_generative_single_from_generative`. -/
def extract_generative_single_from_generative (result : GenerativeResult) :
    Option GenerativeSingle :=
  match result.values with
  | generative :: _ =>
    some
      { debug := if generative.debug.full_prompt ≠ "" then some generative.debug else none
        metadata := extract_generative_metadata generative.metadata
        text := generative.result }
  | [] => none

/-- Embeds `_BaseExecutor.__extract_generative_grouped_from_generative`. -/
def extract_generative_grouped_from_generative (result : GenerativeResult) :
    Option GenerativeGrouped :=
  match result.values with
  | generative :: _ =>
    some
      { metadata := extract_generative_metadata generative.metadata
        text := generative.result }
  | [] => none

mutual
/-- Embeds `search_get_pb2.PropertiesResult`: per-object properties section with
its recursively nested cross-reference properties. -/
inductive PropertiesResult where
  | mk (target_collection : String) (non_ref_props : PProps)
       (ref_props : List RefPropsResult) (ref_props_requested : Bool)

/-- Embeds `search_get_pb2.RefPropertiesResult`: one cross-reference property. -/
inductive RefPropsResult where
  | mk (prop_name : String) (properties : List RefObj)

/-- One referenced object: its properties section plus the metadata the
client reads off it (`prop.metadata`). -/
inductive RefObj where
  | mk (props : PropertiesResult) (metadata : MetadataResult)
end

/-- Collection name of a properties section. -/
def PropertiesResult.target_collection : PropertiesResult → String
  | .mk c _ _ _ => c

/-- Non-reference properties of a properties section. -/
def PropertiesResult.non_ref_props : PropertiesResult → PProps
  | .mk _ p _ _ => p

/-- Cross-reference properties of a properties section. -/
def PropertiesResult.ref_props : PropertiesResult → List RefPropsResult
  | .mk _ _ r _ => r

/-- Whether references were requested for this object. -/
def PropertiesResult.ref_props_requested : PropertiesResult → Bool
  | .mk _ _ _ b => b

/-- Name of a cross-reference property. -/
def RefPropsResult.prop_name : RefPropsResult → String
  | .mk n _ => n

/-- Referenced objects of a cross-reference property. -/
def RefPropsResult.properties : RefPropsResult → List RefObj
  | .mk _ ps => ps

/-- Properties section of a referenced object. -/
def RefObj.props : RefObj → PropertiesResult
  | .mk p _ => p

/-- Metadata section of a referenced object. -/
def RefObj.metadata : RefObj → MetadataResult
  | .mk _ m => m

/-- Modelled from the spec: `_QueryOptions`, the options record of the
assembler — five include flags plus the group-by discriminator (the class
itself lives outside the sources in scope). -/
structure QueryOptions where
  include_properties : Bool
  include_metadata : Bool
  include_references : Bool
  include_vector : Bool
  include_generative : Bool
  is_group_by : Bool := false
deriving DecidableEq, Repr

/-- The restricted options `_QueryOptions(True, True, True, True, False)`
used for referenced objects. -/
def refQueryOptions : QueryOptions :=
  { include_properties := true
    include_metadata := true
    include_references := true
    include_vector := true
    include_generative := false }

/-- Embeds `Object`: a decoded result object.  Nested referenced objects make the
type recursive; `references` is `None` exactly when not materialized. -/
inductive Object where
  | mk (collection : String) (properties : List (String × NV))
       (metadata : MetadataReturn)
       (references : Option (List (String × List Object)))
       (uuid : Nat) (vector : List (String × VecValue))

/-- Collection of a decoded object. -/
def Object.collection : Object → String
  | .mk c _ _ _ _ _ => c

/-- Decoded property map of an object. -/
def Object.properties : Object → List (String × NV)
  | .mk _ p _ _ _ _ => p

/-- Decoded metadata of an object. -/
def Object.metadata : Object → MetadataReturn
  | .mk _ _ m _ _ _ => m

/-- Decoded references of an object (`None` when not materialized). -/
def Object.references : Object → Option (List (String × List Object))
  | .mk _ _ _ r _ _ => r

/-- Identifier of a decoded object. -/
def Object.uuid : Object → Nat
  | .mk _ _ _ _ u _ => u

/-- Vector map of a decoded object. -/
def Object.vector : Object → List (String × VecValue)
  | .mk _ _ _ _ _ v => v

mutual
/-- Embeds `_BaseExecutor.__result_to_query_object`: assemble one `Object`,
materializing each section iff the corresponding option flag is set. -/
def result_to_query_object (h : Helpers) (is125 : Bool)
    (props : PropertiesResult) (meta : MetadataResult)
    (options : QueryOptions) : Object :=
  .mk props.target_collection
    (if options.include_properties then
      (parse_nonref_properties_result h is125 props.non_ref_props).1
    else [])
    (if options.include_metadata then extract_metadata_for_object meta else {})
    (if options.include_references then parse_ref_properties_result h is125 props
     else none)
    (extract_id_for_object meta)
    (if options.include_vector then extract_vector_for_object h meta else [])

/-- Embeds `_BaseExecutor.__parse_ref_properties_result`: with no reference
properties on the wire, return the empty dict when references were
requested and `None` when not; otherwise build the dict
`prop_name → CrossReference` where every referenced object is decoded
recursively with `refQueryOptions`. -/
def parse_ref_properties_result (h : Helpers) (is125 : Bool)
    (props : PropertiesResult) : Option (List (String × List Object)) :=
  match props with
  | .mk _ _ ref_props requested =>
    match ref_props with
    | [] => if requested then some [] else none
    | r :: rs => some (List.foldl insertD [] (ref_entries h is125 (r :: rs)))

/-- The entries of the reference dict, in wire order (the python dict
comprehension folds them with `insertD`). -/
def ref_entries (h : Helpers) (is125 : Bool) :
    List RefPropsResult → List (String × List Object)
  | [] => []
  | .mk nm ps :: rest =>
    (nm, ref_objects h is125 ps) :: ref_entries h is125 rest

/-- The nested objects of one cross-reference property, each assembled with
the restricted `refQueryOptions`. -/
def ref_objects (h : Helpers) (is125 : Bool) : List RefObj → List Object
  | [] => []
  | .mk p m :: rest =>
    result_to_query_object h is125 p m refQueryOptions :: ref_objects h is125 rest
end

/-- Embeds `GenerativeObject`: an `Object` plus the generative annotations. -/
structure GenerativeObject where
  collection : String
  properties : List (String × NV)
  metadata : MetadataReturn
  references : Option (List (String × List Object))
  uuid : Nat
  vector : List (String × VecValue)
  generated : Option String
  generative : Option GenerativeSingle

/-- Embeds `_BaseExecutor.__result_to_generative_object`: like the plain object,
plus the generated text (from the structured payload on 1.27+ servers,
from the metadata side channel before) and the structured annotation. -/
def result_to_generative_object (h : Helpers) (is125 uses127 : Bool)
    (props : PropertiesResult) (meta : MetadataResult)
    (gen : GenerativeResult) (options : QueryOptions) : GenerativeObject where
  collection := props.target_collection
  properties :=
    if options.include_properties then
      (parse_nonref_properties_result h is125 props.non_ref_props).1
    else []
  metadata :=
    if options.include_metadata then extract_metadata_for_object meta else {}
  references :=
    if options.include_references then parse_ref_properties_result h is125 props
    else none
  uuid := extract_id_for_object meta
  vector := if options.include_vector then extract_vector_for_object h meta else []
  generated :=
    if uses127 then extract_generated_from_generative gen
    else extract_generated_from_metadata meta
  generative := extract_generative_single_from_generative gen

/-- Embeds `GroupByObject`: a decoded object tagged with its owning group. -/
structure GroupByObject where
  collection : String
  properties : List (String × NV)
  metadata : GroupByMetadataReturn
  references : Option (List (String × List Object))
  uuid : Nat
  vector : List (String × VecValue)
  belongs_to_group : String

/-- Embeds `_BaseExecutor.__result_to_group_by_object`. -/
def result_to_group_by_object (h : Helpers) (is125 : Bool)
    (props : PropertiesResult) (meta : MetadataResult)
    (options : QueryOptions) (group_name : String) : GroupByObject where
  collection := props.target_collection
  properties :=
    if options.include_properties then
      (parse_nonref_properties_result h is125 props.non_ref_props).1
    else []
  metadata :=
    if options.include_metadata then extract_metadata_for_group_by_object meta
    else {}
  references :=
    if options.include_references then parse_ref_properties_result h is125 props
    else none
  uuid := extract_id_for_object meta
  vector := if options.include_vector then extract_vector_for_object h meta else []
  belongs_to_group := group_name

/-- Embeds `search_get_pb2.GroupByResult`: one wire bucket.  `rerank` holds
`res.rerank.score` when a rerank message is attached, `generative` holds
`res.generative.result` when a generative message is attached. -/
structure GroupByResultMsg where
  name : String
  objects : List RefObj
  number_of_objects : Int := 0
  min_distance : ℚ := 0
  max_distance : ℚ := 0
  rerank : Option ℚ := none
  generative : Option String := none

/-- Embeds `Group`: one decoded group-by bucket. -/
structure Group where
  objects : List GroupByObject
  name : String
  number_of_objects : Int
  min_distance : ℚ
  max_distance : ℚ
  rerank_score : Option ℚ

/-- Embeds `GenerativeGroup`: a decoded bucket with its generated text. -/
structure GenerativeGroup where
  objects : List GroupByObject
  name : String
  number_of_objects : Int
  min_distance : ℚ
  max_distance : ℚ
  rerank_score : Option ℚ
  generated : Option String

/-- Embeds `_BaseExecutor.__result_to_group`: decode one bucket, keeping the
reply's object order and tagging each object with the bucket name. -/
def result_to_group (h : Helpers) (is125 : Bool) (res : GroupByResultMsg)
    (options : QueryOptions) : Group where
  objects :=
    res.objects.map fun obj =>
      result_to_group_by_object h is125 obj.props obj.metadata options res.name
  name := res.name
  number_of_objects := res.number_of_objects
  min_distance := res.min_distance
  max_distance := res.max_distance
  rerank_score := res.rerank

/-- Embeds `_BaseExecutor.__result_to_generative_group`. -/
def result_to_generative_group (h : Helpers) (is125 : Bool)
    (res : GroupByResultMsg) (options : QueryOptions) : GenerativeGroup where
  objects :=
    res.objects.map fun obj =>
      result_to_group_by_object h is125 obj.props obj.metadata options res.name
  name := res.name
  number_of_objects := res.number_of_objects
  min_distance := res.min_distance
  max_distance := res.max_distance
  rerank_score := res.rerank
  generated := res.generative

/-- One entry of `search_get_pb2.SearchReply.results`. -/
structure SearchResultMsg where
  properties : PropertiesResult
  metadata : MetadataResult
  generative : GenerativeResult := {}

/-- Embeds `search_get_pb2.SearchReply`: the reply envelope (the fields this
pipeline reads). -/
structure SearchReply where
  results : List SearchResultMsg := []
  generative_grouped_result : String := ""
  generative_grouped_results : GenerativeResult := {}
  group_by_results : List GroupByResultMsg := []

/-- Embeds `_BaseExecutor.__extract_generated_from_reply`: the deprecated flat
string wins when non-empty, then the first entry of the structured list,
else `None`. -/
def extract_generated_from_reply (res : SearchReply) : Option String :=
  if res.generative_grouped_result ≠ "" then some res.generative_grouped_result
  else
    match res.generative_grouped_results.values with
    | v :: _ => some v.result
    | [] => none

/-- Embeds `QueryReturn`. -/
structure QueryReturn where
  objects : List Object

/-- Embeds `GenerativeReturn`. -/
structure GenerativeReturn where
  objects : List GenerativeObject
  generated : Option String
  generative : Option GenerativeGrouped

/-- Embeds `GroupByReturn`: per-name groups dict plus the flattened object list. -/
structure GroupByReturn where
  objects : List GroupByObject
  groups : List (String × Group)

/-- Embeds `GenerativeGroupByReturn`. -/
structure GenerativeGroupByReturn where
  objects : List GroupByObject
  groups : List (String × GenerativeGroup)
  generated : Option String

/-- Embeds `_BaseExecutor._result_to_query_return`. -/
def result_to_query_return (h : Helpers) (is125 : Bool) (res : SearchReply)
    (options : QueryOptions) : QueryReturn where
  objects :=
    res.results.map fun obj =>
      result_to_query_object h is125 obj.properties obj.metadata options

/-- Embeds `_BaseExecutor._result_to_generative_query_return`. -/
def result_to_generative_query_return (h : Helpers) (is125 uses127 : Bool)
    (res : SearchReply) (options : QueryOptions) : GenerativeReturn where
  objects :=
    res.results.map fun obj =>
      result_to_generative_object h is125 uses127 obj.properties obj.metadata
        obj.generative options
  generated := extract_generated_from_reply res
  generative :=
    extract_generative_grouped_from_generative res.generative_grouped_results

/-- Embeds `_BaseExecutor._result_to_groupby_return`: dict of groups keyed by
name, and the flattened concatenation of the dict values' objects. -/
def result_to_groupby_return (h : Helpers) (is125 : Bool) (res : SearchReply)
    (options : QueryOptions) : GroupByReturn :=
  let groups :=
    List.foldl insertD []
      (res.group_by_results.map fun group =>
        (group.name, result_to_group h is125 group options))
  { objects := (groups.map fun p => p.2.objects).flatten
    groups := groups }

/-- Embeds `_BaseExecutor._result_to_generative_groupby_return`: like the plain
group-by return, but the flattened objects are rebuilt records tagged with
`group.name`, and the reply-level generated text comes only from the
deprecated flat string. -/
def result_to_generative_groupby_return (h : Helpers) (is125 : Bool)
    (res : SearchReply) (options : QueryOptions) : GenerativeGroupByReturn :=
  let groups :=
    List.foldl insertD []
      (res.group_by_results.map fun group =>
        (group.name, result_to_generative_group h is125 group options))
  { objects :=
      (groups.map fun p =>
        p.2.objects.map fun obj =>
          { collection := obj.collection
            properties := obj.properties
            references := obj.references
            metadata := obj.metadata
            belongs_to_group := p.2.name
            uuid := obj.uuid
            vector := obj.vector : GroupByObject }).flatten
    groups := groups
    generated :=
      if res.generative_grouped_result ≠ "" then some res.generative_grouped_result
      else none }

/-- Embeds `_BaseExecutor._result_to_generative_return`: shape selected by the
`is_group_by` flag alone. -/
def result_to_generative_return (h : Helpers) (is125 uses127 : Bool)
    (res : SearchReply) (options : QueryOptions) :
    GenerativeReturn ⊕ GenerativeGroupByReturn :=
  if options.is_group_by = false then
    .inl (result_to_generative_query_return h is125 uses127 res options)
  else
    .inr (result_to_generative_groupby_return h is125 res options)

/-- Embeds `_BaseExecutor._result_to_query_or_groupby_return`. -/
def result_to_query_or_groupby_return (h : Helpers) (is125 : Bool)
    (res : SearchReply) (options : QueryOptions) :
    QueryReturn ⊕ GroupByReturn :=
  if !options.is_group_by then .inl (result_to_query_return h is125 res options)
  else .inr (result_to_groupby_return h is125 res options)

/-- One entry of an explicit property-selection list: a plain property
name or a `QueryNested` sub-selection (its payload is irrelevant here). -/
inductive PropSel where
  | name (s : String)
  | nestedSel (link_on : String)
deriving DecidableEq, Repr

/-- The python value a caller may pass as `return_properties`: `None`, a
bool, a sequence of selections, a single string, a bare `QueryNested`, or
a class (`pymodel`, with a flag telling whether it is a `TypedDict`, whose
declared field names are listed). -/
inductive ReturnProps where
  | pynone
  | pybool (b : Bool)
  | pylist (ps : List PropSel)
  | pystr (s : String)
  | pynested (link_on : String)
  | pymodel (isTypedDict : Bool) (fields : List String)
deriving DecidableEq, Repr

/-- The collection-level generic `self._properties`: absent, a `TypedDict`
data model with declared field names, or some other class. -/
inductive DeclaredProps where
  | typedDict (fields : List String)
  | otherClass
deriving DecidableEq, Repr

/-- The normalized wire selection `Union[PROPERTIES, bool, None]`. -/
inductive ReturnPropsOut where
  | unset
  | boolOut (b : Bool)
  | listOut (ps : List PropSel)
  | strOut (s : String)
  | nestedOut (link_on : String)
deriving DecidableEq, Repr

/-- Python truthiness test `not return_properties` (classes and pydantic
model instances are always truthy). -/
def pyFalsy : ReturnProps → Bool
  | .pybool b => !b
  | .pylist ps => ps.isEmpty
  | .pystr s => s = ""
  | _ => false

/-- Embeds `isinstance(rp, Sequence) or isinstance(rp, str) or isinstance(rp, QueryNested)`. -/
def isSeqLike : ReturnProps → Bool
  | .pylist _ => true
  | .pystr _ => true
  | .pynested _ => true
  | _ => false

/-- Embeds `return_properties is None or return_properties is True`. -/
def isUnsetSelection : ReturnProps → Bool
  | .pynone => true
  | .pybool b => b
  | _ => false

/-- The identity `cast(...)` passthrough of `_parse_return_properties`. -/
def passthroughSelection : ReturnProps → ReturnPropsOut
  | .pynone => .unset
  | .pybool b => .boolOut b
  | .pylist ps => .listOut ps
  | .pystr s => .strOut s
  | .pynested n => .nestedOut n
  | .pymodel _ _ => .unset

/-- Modelled from the spec: `_extract_properties_from_data_model` derives
the selection from the schema's declared field names (the function lives
outside the sources in scope). -/
def extract_properties_from_data_model (fields : List String) : ReturnPropsOut :=
  .listOut (fields.map PropSel.name)

/-- The `WeaviateInvalidInputError` raised on a conflicting shape. -/
def invalidReturnPropsError : String :=
  "return_properties must only be a TypedDict or PROPERTIES within this context"

/-- The final branch of `_parse_return_properties`: the argument must be a
`TypedDict` class, anything else raises `WeaviateInvalidInputError`. -/
def selectionFromModel : ReturnProps → Except String ReturnPropsOut
  | .pymodel true fields => .ok (extract_properties_from_data_model fields)
  | _ => .error invalidReturnPropsError

/-- Embeds `_BaseExecutor._parse_return_properties`: branch for branch the python
conditional chain — falsy non-`None` values give the explicit empty list;
sequences/strings/nested selections and unset-without-schema pass through;
unset-with-schema extracts the declared field names when the schema is a
`TypedDict` and passes through otherwise; any remaining value must itself
be a `TypedDict` class. -/
def parse_return_properties (declared : Option DeclaredProps)
    (return_properties : ReturnProps) : Except String ReturnPropsOut :=
  if return_properties ≠ .pynone ∧ pyFalsy return_properties then
    .ok (.listOut [])
  else if isSeqLike return_properties ∨
      (isUnsetSelection return_properties ∧ declared = none) then
    .ok (passthroughSelection return_properties)
  else if isUnsetSelection return_properties then
    match declared with
    | some (.typedDict fields) => .ok (extract_properties_from_data_model fields)
    | some .otherClass => .ok (passthroughSelection return_properties)
    | none => selectionFromModel return_properties
  else
    selectionFromModel return_properties

/-- A concrete helper record used to evaluate the decoders on closed
inputs (the decoders only dispatch to these functions, so any concrete
instantiation exercises the control flow under verification). -/
def cHelpers : Helpers where
  parseUUID := fun s => s.length
  parseDate := fun s => ⟨(s.length : ℚ)⟩
  decode_int64s := fun l => l.map fun b => (b : Int)
  decode_float64s := fun l => l.map fun b => (b : ℚ)
  decode_float32s := fun l => l.map fun b => (b : ℚ)
  unpackSingle := fun l => l.map fun b => (b : ℚ)
  unpackMulti := fun l => [l.map fun b => (b : ℚ)]

/-! ## Concrete fixtures used by closed-instance theorems -/

/-- Options with every section materialized (non-group-by shape). -/
def allOpts : QueryOptions :=
  { include_properties := true
    include_metadata := true
    include_references := true
    include_vector := true
    include_generative := true }

/-- Options with every section materialized, group-by shape. -/
def allOptsGB : QueryOptions := { allOpts with is_group_by := true }

/-- A metadata record with only the distance-present flag set. -/
def mDistOnly : MetadataResult := { distance_present := true }

/-- A properties section with no properties and no references. -/
def emptyPropsRes : PropertiesResult := .mk "C" (.mk []) [] false

/-- A referenced/bucket object carrying the empty sections. -/
def refObjEmpty : RefObj := .mk emptyPropsRes {}

/-- A wire bucket named `nm` with `k` (identical) member objects. -/
def mkBucket (nm : String) (k : Nat) : GroupByResultMsg :=
  { name := nm, objects := List.replicate k refObjEmpty }

/-- A reply with two buckets of sizes 3 and 1 and distinct names. -/
def replyTwoBuckets : SearchReply :=
  { group_by_results := [mkBucket "a" 3, mkBucket "b" 1] }

/-- A reply with two buckets that share the name "g" (sizes 1 and 2). -/
def replyDupBuckets : SearchReply :=
  { group_by_results := [mkBucket "g" 1, mkBucket "g" 2] }

/-- A reply whose grouped generative output sits only in the structured
list-of-results field; the deprecated flat string is empty. -/
def replyStructuredOnly : SearchReply :=
  { generative_grouped_results := ⟨[{ result := "x" }]⟩ }

/-- A metadata record with two named vector entries sharing the name "v". -/
def mVecDup : MetadataResult :=
  { vectors := [⟨"v", [1], 1⟩, ⟨"v", [2], 1⟩] }

/-- A leaf properties section for the reference-recursion fixture. -/
def leafPropsRes : PropertiesResult := .mk "Leaf" (.mk []) [] false

/-- A properties section with one cross-reference property "ref" holding
one referenced object. -/
def outerPropsRes : PropertiesResult :=
  .mk "Outer" (.mk []) [.mk "ref" [.mk leafPropsRes {}]] true

/-- A metadata record with three named vector entries with distinct names
and single / multi / unrecognized type tags. -/
def mVecNamed : MetadataResult :=
  { vectors := [⟨"u", [1], 1⟩, ⟨"w", [2], 2⟩, ⟨"z", [3], 7⟩] }

/-- A reply in which both the deprecated flat string and the structured
list carry grouped generative output. -/
def replyLegacyAndStructured : SearchReply :=
  { generative_grouped_result := "leg"
    generative_grouped_results := ⟨[{ result := "x" }]⟩ }

/-! ## Shared lemmas -/

/-- Folding `insertD` over entries whose keys are fresh and pairwise
distinct is plain concatenation. -/
theorem foldl_insertD_of_nodup {α : Type} :
    ∀ (l acc : List (String × α)),
      (acc.map Prod.fst ++ l.map Prod.fst).Nodup →
      List.foldl insertD acc l = acc ++ l := by
  intro l
  induction l with
  | nil => intro acc _; simp
  | cons kv t ih =>
    intro acc hnd
    have hk : kv.1 ∉ acc.map Prod.fst := by
      have h := List.nodup_append.mp hnd
      intro hmem
      exact h.2.2 hmem (by simp)
    have hcontains : (acc.map Prod.fst).contains kv.1 = false := by
      simpa using hk
    have hstep : insertD acc kv = acc ++ [kv] := by
      unfold insertD
      rw [hcontains]
      simp
    have hnd' : ((acc ++ [kv]).map Prod.fst ++ t.map Prod.fst).Nodup := by
      simpa using hnd
    calc List.foldl insertD acc (kv :: t)
        = List.foldl insertD (acc ++ [kv]) t := by simp [hstep]
      _ = (acc ++ [kv]) ++ t := ih (acc ++ [kv]) hnd'
      _ = acc ++ kv :: t := by simp

/-- Big-endian byte decomposition round-trips through the big-endian
integer reading, modulo `256 ^ k`. -/
theorem foldl_uuid_to_bytes_big :
    ∀ (k n acc : Nat),
      List.foldl (fun acc b => acc * 256 + b) acc (uuid_to_bytes_big k n)
        = acc * 256 ^ k + n % 256 ^ k := by
  intro k
  induction k with
  | zero => intro n acc; simp [uuid_to_bytes_big, Nat.mod_one]
  | succ k ih =>
    intro n acc
    have hsplit : n % 256 ^ (k + 1) = n % 256 + 256 * (n / 256 % 256 ^ k) := by
      rw [pow_succ, mul_comm (256 ^ k) 256, Nat.mod_mul]
    calc List.foldl (fun acc b => acc * 256 + b) acc (uuid_to_bytes_big (k + 1) n)
        = List.foldl (fun acc b => acc * 256 + b)
            acc (uuid_to_bytes_big k (n / 256) ++ [n % 256]) := by
          simp [uuid_to_bytes_big]
      _ = (acc * 256 ^ k + n / 256 % 256 ^ k) * 256 + n % 256 := by
          simp [List.foldl_append, ih]
      _ = acc * 256 ^ (k + 1) + n % 256 ^ (k + 1) := by
          rw [hsplit]; ring


/-! ## Claims -/

/-- C4: the timestamp decoder interprets a wire epoch integer as
milliseconds since epoch when its decimal digit count is at most 13
(in particular when it is exactly 13), and as nanoseconds since epoch
when the digit count is 14 or more. -/
theorem timestamp_digit_count_boundary (t : Nat) :
    (pyStrLen t ≤ 13 → retrieve_timestamp t = millisInterpretation t) ∧
    (pyStrLen t = 13 → retrieve_timestamp t = millisInterpretation t) ∧
    (14 ≤ pyStrLen t → retrieve_timestamp t = nanosInterpretation t) := by
  refine ⟨fun hle => ?_, fun heq => ?_, fun hge => ?_⟩
  · simp [retrieve_timestamp, millisInterpretation, hle]
  · simp [retrieve_timestamp, millisInterpretation, heq]
  · have hnot : ¬ pyStrLen t ≤ 13 := by omega
    simp [retrieve_timestamp, nanosInterpretation, hnot]

/-- Witness for C4: `10 ^ 12` has exactly 13 decimal digits and decodes
as milliseconds; `10 ^ 13` has 14 digits and decodes as nanoseconds. -/
theorem timestamp_digit_count_boundary_witness :
    pyStrLen 1000000000000 = 13 ∧ pyStrLen 10000000000000 = 14 ∧
    retrieve_timestamp 1000000000000 = millisInterpretation 1000000000000 ∧
    retrieve_timestamp 10000000000000 = nanosInterpretation 10000000000000 :=
  ⟨by decide, by decide,
   (timestamp_digit_count_boundary 1000000000000).2.1 (by decide),
   (timestamp_digit_count_boundary 10000000000000).2.2 (by decide)⟩

/-- C9: reading a 16-byte big-endian encoding through the identifier
extractor returns the original 128-bit value. -/
theorem uuid_bytes_roundtrip (n : Nat) (hbound : n < 2 ^ 128) :
    extract_id_for_object { id_as_bytes := uuid_to_bytes_big 16 n } = n := by
  have hpow : (256 : Nat) ^ 16 = 2 ^ 128 := by norm_num
  have h := foldl_uuid_to_bytes_big 16 n 0
  simp only [extract_id_for_object, int_from_bytes_big]
  rw [h, hpow]
  simpa using Nat.mod_eq_of_lt hbound

/-- Witness for C9: the round-trip at the all-zero and all-ones values. -/
theorem uuid_bytes_roundtrip_witness :
    extract_id_for_object { id_as_bytes := uuid_to_bytes_big 16 0 } = 0 ∧
    extract_id_for_object
        { id_as_bytes := uuid_to_bytes_big 16 (2 ^ 128 - 1) } = 2 ^ 128 - 1 :=
  ⟨uuid_bytes_roundtrip 0 (by norm_num),
   uuid_bytes_roundtrip (2 ^ 128 - 1) (by norm_num)⟩

/-- C10: when a decoded object's reply carries zero reference properties,
its references field is the empty dict when the reply marks references as
requested and `None` when it does not (references being materialized at
all, i.e. `include_references`, is assumed, as the claim speaks about the
reference-parsing result). -/
theorem empty_refs_requested_flag (h : Helpers) (is125 : Bool)
    (props : PropertiesResult) (meta : MetadataResult) (opts : QueryOptions)
    (hinc : opts.include_references = true)
    (hempty : props.ref_props = []) :
    (result_to_query_object h is125 props meta opts).references
      = (if props.ref_props_requested then some [] else none) := by
  cases props with
  | mk c nrp rp req =>
    simp only [PropertiesResult.ref_props] at hempty
    subst hempty
    simp [result_to_query_object, parse_ref_properties_result, hinc,
      Object.references, PropertiesResult.ref_props_requested]

/-- Witness for C10: a reply with zero reference properties, evaluated
with references requested and not requested. -/
theorem empty_refs_requested_flag_witness :
    (result_to_query_object cHelpers true
        (.mk "C" (.mk []) [] true) {} allOpts).references = some [] ∧
    (result_to_query_object cHelpers true
        (.mk "C" (.mk []) [] false) {} allOpts).references = none :=
  ⟨(empty_refs_requested_flag cHelpers true (.mk "C" (.mk []) [] true) {}
      allOpts rfl rfl).trans (by simp [PropertiesResult.ref_props_requested]),
   (empty_refs_requested_flag cHelpers true (.mk "C" (.mk []) [] false) {}
      allOpts rfl rfl).trans (by simp [PropertiesResult.ref_props_requested])⟩

/-- C3: each decoded metadata field is present exactly when its companion
presence flag is set, and a present field carries the wire value (so a
present zero is `some 0`, distinguishable from an absent `none`). -/
theorem metadata_presence_companion_flags (m : MetadataResult) :
    ((extract_metadata_for_object m).distance.isSome = m.distance_present) ∧
    ((extract_metadata_for_object m).certainty.isSome = m.certainty_present) ∧
    ((extract_metadata_for_object m).creation_time.isSome
      = m.creation_time_unix_present) ∧
    ((extract_metadata_for_object m).last_update_time.isSome
      = m.last_update_time_unix_present) ∧
    ((extract_metadata_for_object m).score.isSome = m.score_present) ∧
    ((extract_metadata_for_object m).explain_score.isSome
      = m.explain_score_present) ∧
    ((extract_metadata_for_object m).is_consistent.isSome
      = m.is_consistent_present) ∧
    ((extract_metadata_for_object m).rerank_score.isSome
      = m.rerank_score_present) ∧
    (m.distance_present = true →
      (extract_metadata_for_object m).distance = some m.distance) ∧
    (m.certainty_present = true →
      (extract_metadata_for_object m).certainty = some m.certainty) ∧
    (m.creation_time_unix_present = true →
      (extract_metadata_for_object m).creation_time
        = some (retrieve_timestamp m.creation_time_unix)) ∧
    (m.last_update_time_unix_present = true →
      (extract_metadata_for_object m).last_update_time
        = some (retrieve_timestamp m.last_update_time_unix)) ∧
    (m.score_present = true →
      (extract_metadata_for_object m).score = some m.score) ∧
    (m.explain_score_present = true →
      (extract_metadata_for_object m).explain_score = some m.explain_score) ∧
    (m.is_consistent_present = true →
      (extract_metadata_for_object m).is_consistent = some m.is_consistent) ∧
    (m.rerank_score_present = true →
      (extract_metadata_for_object m).rerank_score = some m.rerank_score) := by
  refine ⟨?_, ?_, ?_, ?_, ?_, ?_, ?_, ?_, ?_, ?_, ?_, ?_, ?_, ?_, ?_, ?_⟩
  · cases hb : m.distance_present <;> simp [extract_metadata_for_object, hb]
  · cases hb : m.certainty_present <;> simp [extract_metadata_for_object, hb]
  · cases hb : m.creation_time_unix_present <;>
      simp [extract_metadata_for_object, hb]
  · cases hb : m.last_update_time_unix_present <;>
      simp [extract_metadata_for_object, hb]
  · cases hb : m.score_present <;> simp [extract_metadata_for_object, hb]
  · cases hb : m.explain_score_present <;> simp [extract_metadata_for_object, hb]
  · cases hb : m.is_consistent_present <;> simp [extract_metadata_for_object, hb]
  · cases hb : m.rerank_score_present <;> simp [extract_metadata_for_object, hb]
  · intro hp; simp [extract_metadata_for_object, hp]
  · intro hp; simp [extract_metadata_for_object, hp]
  · intro hp; simp [extract_metadata_for_object, hp]
  · intro hp; simp [extract_metadata_for_object, hp]
  · intro hp; simp [extract_metadata_for_object, hp]
  · intro hp; simp [extract_metadata_for_object, hp]
  · intro hp; simp [extract_metadata_for_object, hp]
  · intro hp; simp [extract_metadata_for_object, hp]

/-- Witness for C3: a record with only the distance-present flag set
decodes to `some 0` for the distance (a present zero, not absence) and to
the absence marker for every other field. -/
theorem metadata_presence_companion_flags_witness :
    (extract_metadata_for_object mDistOnly).distance = some 0 ∧
    (extract_metadata_for_object mDistOnly).certainty.isSome = false ∧
    (extract_metadata_for_object mDistOnly).creation_time.isSome = false ∧
    (extract_metadata_for_object mDistOnly).last_update_time.isSome = false ∧
    (extract_metadata_for_object mDistOnly).score.isSome = false ∧
    (extract_metadata_for_object mDistOnly).explain_score.isSome = false ∧
    (extract_metadata_for_object mDistOnly).is_consistent.isSome = false ∧
    (extract_metadata_for_object mDistOnly).rerank_score.isSome = false := by
  obtain ⟨h1, h2, h3, h4, h5, h6, h7, h8, h9, -⟩ :=
    metadata_presence_companion_flags mDistOnly
  exact ⟨h9 rfl, h2, h3, h4, h5, h6, h7, h8⟩

/-- C7: the property-selection resolver maps any falsy non-`None`
selection (empty list, `False`, empty string) to the explicit empty wire
selection, and an unset selection (`None` or `True`) combined with a
declared `TypedDict` schema to exactly the schema's declared field
names. -/
theorem return_properties_resolution (declared : Option DeclaredProps)
    (rp : ReturnProps) :
    (rp ≠ .pynone → pyFalsy rp = true →
      parse_return_properties declared rp = .ok (.listOut [])) ∧
    (∀ fields, isUnsetSelection rp = true →
      declared = some (.typedDict fields) →
      parse_return_properties declared rp
        = .ok (.listOut (fields.map PropSel.name))) := by
  constructor
  · intro hne hf
    simp [parse_return_properties, hne, hf]
  · intro fields hunset hdecl
    subst hdecl
    cases rp with
    | pynone =>
      simp [parse_return_properties, isSeqLike, isUnsetSelection, pyFalsy,
        extract_properties_from_data_model]
    | pybool b =>
      cases b with
      | false => simp [isUnsetSelection] at hunset
      | true =>
        simp [parse_return_properties, isSeqLike, isUnsetSelection, pyFalsy,
          extract_properties_from_data_model]
    | pylist ps => simp [isUnsetSelection] at hunset
    | pystr s => simp [isUnsetSelection] at hunset
    | pynested n => simp [isUnsetSelection] at hunset
    | pymodel istd fs => simp [isUnsetSelection] at hunset

/-- Witness for C7: the empty list and `False` resolve to the explicit
empty selection; `None` against the declared schema {"title","year"}
resolves to exactly those two field names. -/
theorem return_properties_resolution_witness :
    parse_return_properties none (.pylist []) = .ok (.listOut []) ∧
    parse_return_properties none (.pybool false) = .ok (.listOut []) ∧
    parse_return_properties (some (.typedDict ["title", "year"])) .pynone
      = .ok (.listOut [.name "title", .name "year"]) := by
  refine ⟨?_, ?_, ?_⟩
  · exact (return_properties_resolution none (.pylist [])).1 (by decide) rfl
  · exact (return_properties_resolution none (.pybool false)).1 (by decide) rfl
  · exact (return_properties_resolution
      (some (.typedDict ["title", "year"])) .pynone).2 ["title", "year"] rfl rfl

/-- Field-wise decoding distributes over concatenation of field lists. -/
theorem deserialize_fields_append (h : Helpers) (b : Bool)
    (l₁ l₂ : List (String × PValue)) :
    deserialize_fields h b (l₁ ++ l₂)
      = ((deserialize_fields h b l₁).1 ++ (deserialize_fields h b l₂).1,
         (deserialize_fields h b l₁).2 ++ (deserialize_fields h b l₂).2) := by
  induction l₁ with
  | nil => simp [deserialize_fields]
  | cons kv t ih =>
    cases kv with
    | mk nm v => simp [deserialize_fields, ih]

/-- C5: a wire value with no recognized tag decodes to python `None`
together with exactly one `unknown_type_encountered` diagnostic, and the
anomaly is local — the sibling fields of the same record decode exactly
as they would without it, and each reply object decodes independently
(the assembled list has one entry per wire result). -/
theorem unknown_tag_nonfatal (h : Helpers) (b : Bool) :
    (deserialize_non_ref_prop h b PValue.unset
      = (NV.noneV, [Warning.unknownTypeEncountered none])) ∧
    (∀ (l₁ l₂ : List (String × PValue)) (nm : String),
      deserialize_fields h b (l₁ ++ (nm, PValue.unset) :: l₂)
        = ((deserialize_fields h b l₁).1
            ++ (nm, NV.noneV) :: (deserialize_fields h b l₂).1,
           (deserialize_fields h b l₁).2
            ++ Warning.unknownTypeEncountered none
               :: (deserialize_fields h b l₂).2)) ∧
    (∀ (res : SearchReply) (opts : QueryOptions),
      (result_to_query_return h b res opts).objects.length
        = res.results.length) := by
  refine ⟨?_, ?_, ?_⟩
  · simp [deserialize_non_ref_prop]
  · intro l₁ l₂ nm
    rw [deserialize_fields_append]
    simp [deserialize_fields, deserialize_non_ref_prop]
  · intro res opts
    simp [result_to_query_return]

/-- The reference-dict entries are, in wire order, the property names
paired with their recursively assembled referenced objects. -/
theorem ref_objects_eq_map (h : Helpers) (b : Bool) (l : List RefObj) :
    ref_objects h b l
      = l.map fun p =>
          result_to_query_object h b p.props p.metadata refQueryOptions := by
  induction l with
  | nil => simp [ref_objects]
  | cons r t ih =>
    cases r with
    | mk p m => simp [ref_objects, ih, RefObj.props, RefObj.metadata]

theorem ref_entries_eq_map (h : Helpers) (b : Bool) (l : List RefPropsResult) :
    ref_entries h b l
      = l.map fun rp =>
          (rp.prop_name,
           rp.properties.map fun p =>
             result_to_query_object h b p.props p.metadata refQueryOptions) := by
  induction l with
  | nil => simp [ref_entries]
  | cons r t ih =>
    cases r with
    | mk nm ps =>
      simp [ref_entries, ih, RefPropsResult.prop_name, RefPropsResult.properties,
        ref_objects_eq_map]

/-- C6: when references are materialized, the references field comes from
the reference parser, and for a non-empty wire reference section that
parser builds, per reference property, the sequence of nested objects
assembled by recursively invoking the plain-object assembler (which
carries no generative output) with the options record fixed to
{properties, metadata, references, vectors: yes; generative: no}. -/
theorem references_recursive_restricted_options (h : Helpers) (b : Bool)
    (props : PropertiesResult) (meta : MetadataResult) (opts : QueryOptions)
    (hinc : opts.include_references = true) :
    ((result_to_query_object h b props meta opts).references
      = parse_ref_properties_result h b props) ∧
    (props.ref_props ≠ [] →
      parse_ref_properties_result h b props
        = some (List.foldl insertD []
            (props.ref_props.map fun rp =>
              (rp.prop_name,
               rp.properties.map fun p =>
                 result_to_query_object h b p.props p.metadata
                   refQueryOptions)))) ∧
    refQueryOptions
      = { include_properties := true, include_metadata := true,
          include_references := true, include_vector := true,
          include_generative := false } := by
  refine ⟨?_, ?_, rfl⟩
  · cases props with
    | mk c nrp rp req =>
      simp [result_to_query_object, hinc, Object.references]
  · intro hne
    cases props with
    | mk c nrp rp req =>
      cases rp with
      | nil => simp [PropertiesResult.ref_props] at hne
      | cons r rs =>
        simp [parse_ref_properties_result, PropertiesResult.ref_props,
          ref_entries_eq_map]

/-- Witness for C6: a reply with one reference property holding one
referenced object resolves to that object assembled with the restricted
options. -/
theorem references_recursive_restricted_options_witness :
    (result_to_query_object cHelpers true outerPropsRes {} allOpts).references
      = some [("ref",
          [result_to_query_object cHelpers true leafPropsRes {}
            refQueryOptions])] := by
  obtain ⟨h1, h2, -⟩ :=
    references_recursive_restricted_options cHelpers true outerPropsRes {}
      allOpts rfl
  rw [h1, h2 (by simp [outerPropsRes, PropertiesResult.ref_props])]
  simp [outerPropsRes, PropertiesResult.ref_props, RefPropsResult.prop_name,
    RefPropsResult.properties, RefObj.props, RefObj.metadata, insertD]

/-- Counterexample for C1: a reply whose deprecated flat string is empty
but whose structured list is non-empty.  In the non-grouped shape the
caller sees the structured text, but in the generative group-by shape the
top-level generated text is absent — the structured list is never
consulted there, contradicting the claim that the legacy-then-structured
selection holds for both result shapes. -/
theorem grouped_generated_ignores_structured_counterexample :
    replyStructuredOnly.generative_grouped_result = "" ∧
    extract_generated_from_generative
        replyStructuredOnly.generative_grouped_results = some "x" ∧
    (result_to_generative_query_return cHelpers true true replyStructuredOnly
        allOpts).generated = some "x" ∧
    (result_to_generative_groupby_return cHelpers true replyStructuredOnly
        allOptsGB).generated = none := by
  refine ⟨rfl, rfl, ?_, ?_⟩
  · simp [result_to_generative_query_return, extract_generated_from_reply,
      replyStructuredOnly, extract_generated_from_generative]
  · simp [result_to_generative_groupby_return, replyStructuredOnly]

/-- C1 (amended): the legacy-then-structured selection governs the
non-grouped generative result shape (the deprecated flat string wins when
non-empty, otherwise the first entry of the structured list, otherwise
absent); the generative group-by shape takes its top-level generated text
from the deprecated flat string alone, absent when that string is empty,
never reading the structured list. -/
theorem generated_text_source_selection (h : Helpers) (b u : Bool)
    (res : SearchReply) (opts : QueryOptions) :
    (res.generative_grouped_result ≠ "" →
      extract_generated_from_reply res = some res.generative_grouped_result) ∧
    (res.generative_grouped_result = "" →
      extract_generated_from_reply res
        = extract_generated_from_generative res.generative_grouped_results) ∧
    ((result_to_generative_query_return h b u res opts).generated
      = extract_generated_from_reply res) ∧
    ((result_to_generative_groupby_return h b res opts).generated
      = if res.generative_grouped_result ≠ ""
        then some res.generative_grouped_result else none) := by
  refine ⟨fun hne => ?_, fun he => ?_, ?_, ?_⟩
  · simp [extract_generated_from_reply, hne]
  · cases hv : res.generative_grouped_results.values with
    | nil =>
      simp [extract_generated_from_reply, extract_generated_from_generative,
        he, hv]
    | cons v vs =>
      simp [extract_generated_from_reply, extract_generated_from_generative,
        he, hv]
  · simp [result_to_generative_query_return]
  · simp [result_to_generative_groupby_return]

/-- Witness for C1 (amended): with both sources populated the legacy
string wins; with only the structured list populated, the non-grouped
shape surfaces its first entry while the group-by shape surfaces
nothing. -/
theorem generated_text_source_selection_witness :
    extract_generated_from_reply replyLegacyAndStructured = some "leg" ∧
    extract_generated_from_reply replyStructuredOnly = some "x" ∧
    (result_to_generative_groupby_return cHelpers true replyLegacyAndStructured
        allOptsGB).generated = some "leg" := by
  refine ⟨?_, ?_, ?_⟩
  · exact (generated_text_source_selection cHelpers true true
      replyLegacyAndStructured allOptsGB).1 (by simp [replyLegacyAndStructured])
  · exact ((generated_text_source_selection cHelpers true true
      replyStructuredOnly allOptsGB).2.1 rfl).trans rfl
  · rw [(generated_text_source_selection cHelpers true true
      replyLegacyAndStructured allOptsGB).2.2.2]
    simp [replyLegacyAndStructured]

/-- Counterexample for C2: a reply with two buckets that share a name.
The groups dict collapses them into a single `GroupRecord` (so not one
record per bucket), and the flattened view holds only the surviving
record's 2 members although the buckets carry 3 members in total. -/
theorem groupby_duplicate_bucket_counterexample :
    replyDupBuckets.group_by_results.length = 2 ∧
    (result_to_groupby_return cHelpers true replyDupBuckets
        allOptsGB).groups.length = 1 ∧
    (replyDupBuckets.group_by_results.map
        (fun g => g.objects.length)).sum = 3 ∧
    (result_to_groupby_return cHelpers true replyDupBuckets
        allOptsGB).objects.length = 2 := by
  refine ⟨rfl, ?_, rfl, ?_⟩
  · simp [result_to_groupby_return, replyDupBuckets, mkBucket, insertD,
      result_to_group]
  · simp [result_to_groupby_return, replyDupBuckets, mkBucket, insertD,
      result_to_group]

/-- C2 (amended): for a reply whose bucket names are pairwise distinct,
the assembler builds exactly one group per bucket in reply order, each
group preserves the reply's object order within its bucket, the flattened
list is the concatenation of all groups' members in bucket order, and
each member's belongs-to-group tag is its source bucket's name.  (With
duplicate bucket names, a later bucket overwrites the earlier record at
its original position.) -/
theorem groupby_assembly_order (h : Helpers) (b : Bool) (res : SearchReply)
    (opts : QueryOptions)
    (hnd : (res.group_by_results.map GroupByResultMsg.name).Nodup) :
    ((result_to_groupby_return h b res opts).groups
      = res.group_by_results.map fun g =>
          (g.name, result_to_group h b g opts)) ∧
    ((result_to_groupby_return h b res opts).objects
      = (res.group_by_results.map fun g =>
          (result_to_group h b g opts).objects).flatten) ∧
    (∀ g, g ∈ res.group_by_results →
      (result_to_group h b g opts).objects
        = g.objects.map fun o =>
            result_to_group_by_object h b o.props o.metadata opts g.name) ∧
    (∀ g o, g ∈ res.group_by_results →
      o ∈ (result_to_group h b g opts).objects →
      o.belongs_to_group = g.name) := by
  have hfold :
      List.foldl insertD []
          (res.group_by_results.map fun g => (g.name, result_to_group h b g opts))
        = res.group_by_results.map fun g => (g.name, result_to_group h b g opts) := by
    apply foldl_insertD_of_nodup
    simpa [List.map_map, Function.comp] using hnd
  refine ⟨?_, ?_, ?_, ?_⟩
  · simp [result_to_groupby_return, hfold]
  · simp only [result_to_groupby_return, hfold, List.map_map]
    rfl
  · intro g _
    rfl
  · intro g o _ ho
    have ho' : o ∈ g.objects.map fun o =>
        result_to_group_by_object h b o.props o.metadata opts g.name := ho
    obtain ⟨a, -, rfl⟩ := List.mem_map.mp ho'
    rfl

/-- Witness for C2 (amended): two buckets of sizes 3 and 1 with distinct
names "a" and "b" yield a flattened view of 4 entries in bucket order
whose belongs-to-group tags are the bucket names. -/
theorem groupby_assembly_order_witness :
    (result_to_groupby_return cHelpers true replyTwoBuckets
        allOptsGB).objects.length = 4 ∧
    (result_to_groupby_return cHelpers true replyTwoBuckets
        allOptsGB).objects.map GroupByObject.belongs_to_group
      = ["a", "a", "a", "b"] ∧
    (result_to_groupby_return cHelpers true replyTwoBuckets
        allOptsGB).groups.map Prod.fst = ["a", "b"] := by
  obtain ⟨hg, ho, -, -⟩ :=
    groupby_assembly_order cHelpers true replyTwoBuckets allOptsGB
      (by simp [replyTwoBuckets, mkBucket])
  refine ⟨?_, ?_, ?_⟩
  · rw [ho]; rfl
  · rw [ho]; rfl
  · rw [hg]; rfl

/-- Counterexample for C8: a record with two named vector entries that
share the name "v" yields a single-entry mapping, not one entry per named
vector. -/
theorem vector_duplicate_name_counterexample :
    mVecDup.vectors.length = 2 ∧
    (extract_vector_for_object cHelpers mVecDup).length = 1 := by
  refine ⟨rfl, ?_⟩
  simp [extract_vector_for_object, mVecDup, insertD, decodeVecEntry]

/-- C8 (amended): the vector decoder returns the empty mapping when no
unnamed buffer and no named entries are present; a non-empty unnamed
packed buffer yields the single entry "default"; otherwise, provided the
entry names are pairwise distinct, it returns one entry per named vector
in wire order, decoded single for the single tag, multi for the multi
tag, and single for any unrecognized tag.  (With duplicate names a later
entry overwrites the earlier one at its original position.) -/
theorem vector_extraction_shapes (h : Helpers) (m : MetadataResult) :
    (m.vector_bytes = [] → m.vectors = [] →
      extract_vector_for_object h m = []) ∧
    (m.vector_bytes ≠ [] →
      extract_vector_for_object h m
        = [("default", .single (h.decode_float32s m.vector_bytes))]) ∧
    (m.vector_bytes = [] → (m.vectors.map VectorsMsg.name).Nodup →
      extract_vector_for_object h m
        = m.vectors.map fun v => (v.name, decodeVecEntry h v)) ∧
    (∀ v : VectorsMsg, v.type ≠ VECTOR_TYPE_SINGLE_FP32 →
      v.type ≠ VECTOR_TYPE_MULTI_FP32 →
      decodeVecEntry h v = .single (h.unpackSingle v.vector_bytes)) := by
  refine ⟨?_, ?_, ?_, ?_⟩
  · intro h1 h2
    by_cases hv : m.vector.length = 0 <;>
      simp [extract_vector_for_object, h1, h2, hv]
  · intro hne
    have hb : m.vector_bytes.length ≠ 0 := by
      simpa [List.length_eq_zero] using hne
    simp [extract_vector_for_object, hb, Nat.pos_of_ne_zero hb]
  · intro h1 hnd
    have hmap :
        m.vectors.foldl
            (fun vecs vec => insertD vecs (vec.name, decodeVecEntry h vec)) []
          = List.foldl insertD []
              (m.vectors.map fun v => (v.name, decodeVecEntry h v)) := by
      rw [List.foldl_map]
    have hfold :
        List.foldl insertD []
            (m.vectors.map fun v => (v.name, decodeVecEntry h v))
          = m.vectors.map fun v => (v.name, decodeVecEntry h v) := by
      apply foldl_insertD_of_nodup
      simpa [List.map_map, Function.comp] using hnd
    by_cases hvs : m.vectors.length = 0
    · have : m.vectors = [] := List.length_eq_zero.mp hvs
      by_cases hv : m.vector.length = 0 <;>
        simp [extract_vector_for_object, h1, hv, this]
    · simp [extract_vector_for_object, h1, hvs, hmap, hfold]
  · intro v hs hm
    simp [decodeVecEntry, hs, hm]

/-- Witness for C8 (amended): the all-absent record decodes to the empty
mapping; an unnamed buffer decodes to the "default" entry; three named
entries with distinct names and single / multi / unrecognized tags decode
to three entries in wire order. -/
theorem vector_extraction_shapes_witness :
    extract_vector_for_object cHelpers {} = [] ∧
    extract_vector_for_object cHelpers { vector_bytes := [5] }
      = [("default", .single (cHelpers.decode_float32s [5]))] ∧
    (extract_vector_for_object cHelpers mVecNamed).map Prod.fst
      = ["u", "w", "z"] ∧
    decodeVecEntry cHelpers ⟨"z", [3], 7⟩
      = .single (cHelpers.unpackSingle [3]) := by
  refine ⟨?_, ?_, ?_, ?_⟩
  · exact (vector_extraction_shapes cHelpers {}).1 rfl rfl
  · exact (vector_extraction_shapes cHelpers { vector_bytes := [5] }).2.1
      (by simp)
  · rw [(vector_extraction_shapes cHelpers mVecNamed).2.2.1 rfl
      (by simp [mVecNamed])]
    rfl
  · exact (vector_extraction_shapes cHelpers mVecNamed).2.2.2 ⟨"z", [3], 7⟩
      (by decide) (by decide)

end Weaviate
